import Mathlib

/-!
Verification of the GlassKiss access-control core: a shallow embedding of the
SQL blast-radius enforcer, the risk scorer, the scope analyzer, and the
lifecycle handlers (approve, provision, log-command, revoke), with theorems
settling the specification claims.  Commands and reasons are modelled as
`List Char`; the JavaScript regular expressions of the source are embedded as
executable character-list matchers with the same semantics (including the
variable-length lookbehind of the dangerous UPDATE pattern).
-/

namespace GlassKiss

/-- JS `\s` whitespace class (ASCII part): space, tab, LF, VT, FF, CR. -/
def isWs (c : Char) : Bool :=
  c.toNat = 32 || c.toNat = 9 || c.toNat = 10 || c.toNat = 11 || c.toNat = 12 || c.toNat = 13

/-- JS `\d` digit class. -/
def isDigitChar (c : Char) : Bool :=
  48 ≤ c.toNat && c.toNat ≤ 57

/-- JS `\w` word-character class: `[A-Za-z0-9_]`. -/
def isWord (c : Char) : Bool :=
  (65 ≤ c.toNat && c.toNat ≤ 90) || (97 ≤ c.toNat && c.toNat ≤ 122) || isDigitChar c || c.toNat = 95

/-- Lowercase a character list (`String.toLowerCase` on ASCII). -/
def lcs (s : List Char) : List Char := s.map Char.toLower

/-- Uppercase a character list (`String.toUpperCase` on ASCII). -/
def ucs (s : List Char) : List Char := s.map Char.toUpper

/-- `String.trim` of JS: strip leading and trailing whitespace. -/
def trimChars (s : List Char) : List Char :=
  ((s.dropWhile isWs).reverse.dropWhile isWs).reverse

/-- Match `pat` case-insensitively at the head of `s`, returning the rest. -/
def dropPrefixCI : List Char → List Char → Option (List Char)
  | [], s => some s
  | _, [] => none
  | p :: ps, c :: cs => if p.toLower = c.toLower then dropPrefixCI ps cs else none

/-- Case-insensitive literal at the head of the input. -/
def startsWithCI (pat s : List Char) : Bool := (dropPrefixCI pat s).isSome

/-- Case-sensitive literal at the head of the input (pattern first). -/
def listStartsWith : List Char → List Char → Bool
  | [], _ => true
  | _, [] => false
  | p :: ps, c :: cs => p = c && listStartsWith ps cs

/-- `\s+`: require at least one whitespace character, consume the maximal run. -/
def span1Ws (s : List Char) : Option (List Char) :=
  match s with
  | c :: _ => if isWs c then some (s.dropWhile isWs) else none
  | [] => none

/-- `\w+`: require at least one word character, consume the maximal run. -/
def span1Word (s : List Char) : Option (List Char) :=
  match s with
  | c :: _ => if isWord c then some (s.dropWhile isWord) else none
  | [] => none

/-- Does some suffix of `s` satisfy `f`? (Used to model unanchored regex search.) -/
def anyTail (f : List Char → Bool) : List Char → Bool
  | [] => f []
  | c :: cs => f (c :: cs) || anyTail f cs

/-- Case-sensitive substring containment (`String.includes` of JS). -/
def containsSub (pat : List Char) (s : List Char) : Bool :=
  anyTail (fun t => listStartsWith pat t) s

/-- A single quote character, kept out of string literals. -/
def sqc : Char := Char.ofNat 39

/-- A single quote as a one-character string. -/
def sqs : String := String.mk [sqc]

/-! ### Blast-radius controller: data types (blast-radius-controller.ts) -/

inductive Severity
  | low
  | medium
  | high
  | critical
deriving DecidableEq

inductive ViolationType
  | row_limit
  | no_where
  | table_blocked
  | operation_blocked
  | scope_violation
deriving DecidableEq

structure BlastRadiusResult where
  allowed : Bool
  reason : Option String
  violationType : Option ViolationType
  severity : Severity
deriving DecidableEq

structure ExtractedEntity where
  type : String
  field : String
  value : String
deriving DecidableEq

structure AccessScope where
  allowedTables : List String
  allowedOperations : List String
  rowFilters : List (String × String)
  maxRowsAffected : Int
  extractedEntities : List ExtractedEntity
  scopeDescription : String
deriving DecidableEq

structure BlastRadiusConfig where
  maxRowsAffected : Int
  requireWhereForUpdate : Bool
  requireWhereForDelete : Bool
  blockedOperations : List String
  blockedTables : List String
deriving DecidableEq

/-- DEFAULT_CONFIG of the source. -/
def defaultConfig : BlastRadiusConfig :=
  { maxRowsAffected := 100
    requireWhereForUpdate := true
    requireWhereForDelete := true
    blockedOperations := ["DROP", "TRUNCATE", "ALTER"]
    blockedTables := ["migrations", "schema_versions", "pg_catalog", "information_schema"] }

/-- The allowed (passing) result `{ allowed: true, severity: low }`. -/
def allowedLow : BlastRadiusResult :=
  { allowed := true, reason := none, violationType := none, severity := Severity.low }

/-! ### Dangerous-pattern regexes -/

/-- Regex `^DROP\s+(TABLE|DATABASE|SCHEMA|INDEX)` (case-insensitive). -/
def matchDropDangerous (s : List Char) : Bool :=
  match dropPrefixCI ("DROP".data) s with
  | none => false
  | some r =>
    match span1Ws r with
    | none => false
    | some r2 =>
      startsWithCI ("TABLE".data) r2 || startsWithCI ("DATABASE".data) r2 ||
        startsWithCI ("SCHEMA".data) r2 || startsWithCI ("INDEX".data) r2

/-- Regex `^TRUNCATE\s+TABLE` (case-insensitive). -/
def matchTruncateDangerous (s : List Char) : Bool :=
  match dropPrefixCI ("TRUNCATE".data) s with
  | none => false
  | some r =>
    match span1Ws r with
    | none => false
    | some r2 => startsWithCI ("TABLE".data) r2

/-- The trailing `\s*;?\s*$` of the anchored patterns, matched in full. -/
def tailOk (s : List Char) : Bool :=
  match s.dropWhile isWs with
  | [] => true
  | c :: rest => c = Char.ofNat 59 && (rest.dropWhile isWs).isEmpty

/-- Regex `^DELETE\s+FROM\s+\w+\s*;?\s*$` (case-insensitive). -/
def matchDeleteNoWhere (s : List Char) : Bool :=
  match dropPrefixCI ("DELETE".data) s with
  | none => false
  | some r =>
    match span1Ws r with
    | none => false
    | some r2 =>
      match dropPrefixCI ("FROM".data) r2 with
      | none => false
      | some r3 =>
        match span1Ws r3 with
        | none => false
        | some r4 =>
          match span1Word r4 with
          | none => false
          | some r5 => tailOk r5

/-- Does some string matching `WHERE\s+\w+` (case-insensitive) end exactly at the
end of `s`?  This is the lookbehind body of the dangerous UPDATE pattern. -/
def endsWithWhereWord (s : List Char) : Bool :=
  let r := s.reverse
  let w := r.takeWhile isWord
  let r2 := r.dropWhile isWord
  let ws := r2.takeWhile isWs
  let r3 := r2.dropWhile isWs
  !w.isEmpty && !ws.isEmpty && startsWithCI ("EREHW".data) r3

/-- Regex `^UPDATE\s+\w+\s+SET\s+[^;]+(?<!WHERE\s+\w+)\s*;?\s*$` (case-insensitive),
with the JS variable-length negative lookbehind: the pattern matches when some
split position `p` after `SET` has a nonempty, semicolon-free segment before it
whose first character is whitespace, a `\s*;?\s*` tail after it, and no match of
`WHERE\s+\w+` ending at `p`. -/
def matchUpdateNoWhere (s : List Char) : Bool :=
  match dropPrefixCI ("UPDATE".data) s with
  | none => false
  | some r =>
    match span1Ws r with
    | none => false
    | some r1 =>
      match span1Word r1 with
      | none => false
      | some r2 =>
        match span1Ws r2 with
        | none => false
        | some r3 =>
          match dropPrefixCI ("SET".data) r3 with
          | none => false
          | some rest =>
            match rest with
            | [] => false
            | c0 :: _ =>
              isWs c0 &&
                (List.range (rest.length + 1)).any (fun p =>
                  decide (2 ≤ p) && (rest.take p).all (fun c => c.toNat ≠ 59) &&
                    tailOk (rest.drop p) &&
                    !endsWithWhereWord (s.take (s.length - rest.length) ++ rest.take p))

/-- Regex `DELETE\s+\*\s+FROM` (case-insensitive, unanchored) at this position. -/
def massDeleteAt (s : List Char) : Bool :=
  match dropPrefixCI ("DELETE".data) s with
  | none => false
  | some r =>
    match span1Ws r with
    | none => false
    | some r2 =>
      match r2 with
      | c :: r3 =>
        c = '*' &&
          (match span1Ws r3 with
           | none => false
           | some r4 => startsWithCI ("FROM".data) r4)
      | [] => false

/-- Regex `DELETE\s+\*\s+FROM` tested anywhere in the command. -/
def matchMassDelete (s : List Char) : Bool := anyTail massDeleteAt s

/-- Check 1 of the controller: the DANGEROUS_PATTERNS table, in source order. -/
def checkDangerousPatterns (cmd : List Char) : BlastRadiusResult :=
  if matchDropDangerous cmd then
    { allowed := false, reason := some "Blocked: DROP without safeguard",
      violationType := some ViolationType.operation_blocked, severity := Severity.critical }
  else if matchTruncateDangerous cmd then
    { allowed := false, reason := some "Blocked: TRUNCATE table",
      violationType := some ViolationType.operation_blocked, severity := Severity.critical }
  else if matchDeleteNoWhere cmd then
    { allowed := false, reason := some "Blocked: DELETE all rows (no WHERE)",
      violationType := some ViolationType.operation_blocked, severity := Severity.critical }
  else if matchUpdateNoWhere cmd then
    { allowed := false, reason := some "Blocked: UPDATE all rows (no WHERE)",
      violationType := some ViolationType.operation_blocked, severity := Severity.high }
  else if matchMassDelete cmd then
    { allowed := false, reason := some "Blocked: Mass DELETE with *",
      violationType := some ViolationType.operation_blocked, severity := Severity.critical }
  else allowedLow

/-- Check 2: blocked leading operations, compared on the uppercased command. -/
def checkBlockedOperations (cfg : BlastRadiusConfig) (upperCmd : List Char) : BlastRadiusResult :=
  match cfg.blockedOperations.find? (fun op => listStartsWith op.data upperCmd) with
  | some op =>
    { allowed := false,
      reason := some ("Operation " ++ op ++ " is blocked by blast radius policy"),
      violationType := some ViolationType.operation_blocked, severity := Severity.high }
  | none => allowedLow

/-- One table-reference pattern `kw\s+tbl\b` (case-insensitive) at this position. -/
def tableRefAt (kw tbl : List Char) (s : List Char) : Bool :=
  match dropPrefixCI kw s with
  | none => false
  | some r =>
    match span1Ws r with
    | none => false
    | some r2 =>
      match dropPrefixCI tbl r2 with
      | none => false
      | some r3 =>
        match r3 with
        | [] => true
        | c :: _ => !isWord c

/-- Any of the four table-reference patterns anywhere in the command. -/
def tableRefMatch (tbl : String) (cmd : List Char) : Bool :=
  anyTail (tableRefAt ("from".data) tbl.data) cmd ||
    anyTail (tableRefAt ("into".data) tbl.data) cmd ||
    anyTail (tableRefAt ("update".data) tbl.data) cmd ||
    anyTail (tableRefAt ("table".data) tbl.data) cmd

/-- Check 3: protected tables referenced after FROM/INTO/UPDATE/TABLE. -/
def checkBlockedTables (cfg : BlastRadiusConfig) (cmd : List Char) : BlastRadiusResult :=
  match cfg.blockedTables.find? (fun t => tableRefMatch t cmd) with
  | some t =>
    { allowed := false,
      reason := some ("Table " ++ sqs ++ t ++ sqs ++ " is protected by blast radius policy"),
      violationType := some ViolationType.table_blocked, severity := Severity.high }
  | none => allowedLow

/-- Word token with `\b` boundaries on both sides, scanned over the command. -/
def hasWordTokenAux (tok : List Char) : Option Char → List Char → Bool
  | _, [] => false
  | prev, c :: cs =>
    ((match prev with
      | none => true
      | some pc => !isWord pc) &&
      (match dropPrefixCI tok (c :: cs) with
       | none => false
       | some r =>
         match r with
         | [] => true
         | d :: _ => !isWord d)) ||
      hasWordTokenAux tok (some c) cs

/-- Regex `\bTOK\b` (case-insensitive) tested anywhere in the command. -/
def hasWordToken (tok : List Char) (s : List Char) : Bool :=
  hasWordTokenAux tok none s

/-- Check 4: the WHERE-clause requirement for DELETE and UPDATE. -/
def checkWhereClause (cfg : BlastRadiusConfig) (cmd : List Char) : BlastRadiusResult :=
  let upperCmd := ucs (trimChars cmd)
  let hasWhere := hasWordToken ("WHERE".data) cmd
  if listStartsWith ("DELETE".data) upperCmd && cfg.requireWhereForDelete && !hasWhere then
    { allowed := false,
      reason := some "DELETE requires a WHERE clause. Mass deletes are not permitted.",
      violationType := some ViolationType.no_where, severity := Severity.critical }
  else if listStartsWith ("UPDATE".data) upperCmd && cfg.requireWhereForUpdate && !hasWhere then
    { allowed := false,
      reason := some "UPDATE requires a WHERE clause. Mass updates are not permitted.",
      violationType := some ViolationType.no_where, severity := Severity.high }
  else allowedLow

/-- Regex `LIMIT\s+(\d+)` (case-insensitive) at this position: the digit capture. -/
def limitCaptureAt (s : List Char) : Option (List Char) :=
  match dropPrefixCI ("LIMIT".data) s with
  | none => none
  | some r =>
    match span1Ws r with
    | none => none
    | some r2 =>
      let ds := r2.takeWhile isDigitChar
      if ds.isEmpty then none else some ds

/-- First match of `LIMIT\s+(\d+)` in the command. -/
def findLimitCapture : List Char → Option (List Char)
  | [] => none
  | c :: cs =>
    match limitCaptureAt (c :: cs) with
    | some ds => some ds
    | none => findLimitCapture cs

/-- `parseInt` of a decimal digit run. -/
def digitsToNat (ds : List Char) : Nat :=
  ds.foldl (fun n c => n * 10 + (c.toNat - 48)) 0

/-- The `\s*=\s*\d+` tail of the specific-id pattern. -/
def eqNumTail (s : List Char) : Bool :=
  match s.dropWhile isWs with
  | c :: r2 =>
    c = '=' &&
      (match (r2.dropWhile isWs) with
       | d :: _ => isDigitChar d
       | [] => false)
  | [] => false

/-- The `\s+IN\s*\(` tail of the in-clause pattern. -/
def inClauseTail (s : List Char) : Bool :=
  match span1Ws s with
  | none => false
  | some r =>
    match dropPrefixCI ("IN".data) r with
    | none => false
    | some r2 =>
      match r2.dropWhile isWs with
      | c :: _ => c = '('
      | [] => false

/-- `\w*id` followed by `f`: zero or more word characters, then the literal
`id` (case-insensitive), then the continuation `f`. -/
def idThen (f : List Char → Bool) : List Char → Bool
  | [] => false
  | c :: cs =>
    (match dropPrefixCI ("id".data) (c :: cs) with
     | some r => f r
     | none => false) ||
      (isWord c && idThen f cs)

/-- Regex `WHERE\s+\w*id\s*=\s*\d+` (case-insensitive) at this position. -/
def specificIdAt (s : List Char) : Bool :=
  match dropPrefixCI ("WHERE".data) s with
  | none => false
  | some r =>
    match span1Ws r with
    | none => false
    | some r2 => idThen eqNumTail r2

/-- Regex `WHERE\s+\w*id\s+IN\s*\(` (case-insensitive) at this position. -/
def inClauseAt (s : List Char) : Bool :=
  match dropPrefixCI ("WHERE".data) s with
  | none => false
  | some r =>
    match span1Ws r with
    | none => false
    | some r2 => idThen inClauseTail r2

/-- Regex `IN\s*\(([^)]+)\)` (case-insensitive) at this position: the capture. -/
def inCaptureAt (s : List Char) : Option (List Char) :=
  match dropPrefixCI ("IN".data) s with
  | none => none
  | some r =>
    match r.dropWhile isWs with
    | c :: r3 =>
      if c = '(' then
        let grp := r3.takeWhile (fun d => d ≠ ')')
        if grp.isEmpty then none
        else
          match r3.drop grp.length with
          | d :: _ => if d = ')' then some grp else none
          | [] => none
      else none
    | [] => none

/-- First match of `IN\s*\(([^)]+)\)` in the command. -/
def findInCapture : List Char → Option (List Char)
  | [] => none
  | c :: cs =>
    match inCaptureAt (c :: cs) with
    | some grp => some grp
    | none => findInCapture cs

/-- Check 5: row-limit estimation. -/
def checkRowLimit (cfg : BlastRadiusConfig) (cmd : List Char) (scope : Option AccessScope) :
    BlastRadiusResult :=
  let maxRows : Int :=
    match scope with
    | some sc => sc.maxRowsAffected
    | none => cfg.maxRowsAffected
  let upperCmd := ucs cmd
  match findLimitCapture cmd with
  | some ds =>
    let lim : Int := (digitsToNat ds : Int)
    if maxRows < lim then
      { allowed := false,
        reason := some ("LIMIT " ++ toString lim ++ " exceeds maximum allowed (" ++
          toString maxRows ++ ")"),
        violationType := some ViolationType.row_limit, severity := Severity.medium }
    else allowedLow
  | none =>
    if listStartsWith ("DELETE".data) upperCmd || listStartsWith ("UPDATE".data) upperCmd then
      let hasSpecificId := anyTail specificIdAt cmd
      let hasInClause := anyTail inClauseAt cmd
      if !hasSpecificId && !hasInClause then
        { allowed := false,
          reason := some ("Write operations must target specific IDs or include LIMIT. Max rows: " ++
            toString maxRows),
          violationType := some ViolationType.row_limit, severity := Severity.medium }
      else if hasInClause then
        match findInCapture cmd with
        | some grp =>
          let itemCount := grp.count ',' + 1
          if maxRows < (itemCount : Int) then
            { allowed := false,
              reason := some ("IN clause contains " ++ toString itemCount ++
                " items, exceeds max " ++ toString maxRows),
              violationType := some ViolationType.row_limit, severity := Severity.medium }
          else allowedLow
        | none => allowedLow
      else allowedLow
    else allowedLow

/-- getOperationType: leading verb of the trimmed, uppercased command. -/
def getOperationType (cmd : List Char) : String :=
  let u := ucs (trimChars cmd)
  if listStartsWith ("SELECT".data) u then "SELECT"
  else if listStartsWith ("INSERT".data) u then "INSERT"
  else if listStartsWith ("UPDATE".data) u then "UPDATE"
  else if listStartsWith ("DELETE".data) u then "DELETE"
  else if listStartsWith ("DROP".data) u then "DROP"
  else if listStartsWith ("CREATE".data) u then "CREATE"
  else if listStartsWith ("ALTER".data) u then "ALTER"
  else if listStartsWith ("TRUNCATE".data) u then "TRUNCATE"
  else "OTHER"

/-- Pattern `KW\s+(\w+)` at this position: the captured word. -/
def kwCaptureAt (kw : List Char) (s : List Char) : Option (List Char) :=
  match dropPrefixCI kw s with
  | none => none
  | some r =>
    match span1Ws r with
    | none => none
    | some r2 =>
      let w := r2.takeWhile isWord
      if w.isEmpty then none else some w

/-- Leftmost match of `KW\s+(\w+)` in the command. -/
def kwCaptureAux (kw : List Char) : List Char → Option (List Char)
  | [] => none
  | c :: cs =>
    match kwCaptureAt kw (c :: cs) with
    | some w => some w
    | none => kwCaptureAux kw cs

/-- Pattern `DELETE\s+FROM\s+(\w+)` at this position. -/
def delFromAt (s : List Char) : Option (List Char) :=
  match dropPrefixCI ("DELETE".data) s with
  | none => none
  | some r =>
    match span1Ws r with
    | none => none
    | some r2 => kwCaptureAt ("FROM".data) r2

/-- Leftmost match of `DELETE\s+FROM\s+(\w+)`. -/
def delFromAux : List Char → Option (List Char)
  | [] => none
  | c :: cs =>
    match delFromAt (c :: cs) with
    | some w => some w
    | none => delFromAux cs

/-- extractTableName: the five patterns in source order, first one that matches. -/
def extractTableName (cmd : List Char) : Option (List Char) :=
  match kwCaptureAux ("FROM".data) cmd with
  | some w => some w
  | none =>
    match kwCaptureAux ("UPDATE".data) cmd with
    | some w => some w
    | none =>
      match kwCaptureAux ("INTO".data) cmd with
      | some w => some w
      | none =>
        match delFromAux cmd with
        | some w => some w
        | none => kwCaptureAux ("TABLE".data) cmd

/-- Leftmost match of `(\w+)\s*=\s*(\w+)` starting exactly here. -/
def fieldValueAt (s : List Char) : Option (List Char × List Char) :=
  let f := s.takeWhile isWord
  if f.isEmpty then none
  else
    match (s.dropWhile isWord).dropWhile isWs with
    | c :: r2 =>
      if c = '=' then
        let r3 := r2.dropWhile isWs
        let v := r3.takeWhile isWord
        if v.isEmpty then none else some (f, v)
      else none
    | [] => none

/-- Leftmost match of `(\w+)\s*=\s*(\w+)` in a condition string. -/
def findFieldValue : List Char → Option (List Char × List Char)
  | [] => none
  | c :: cs =>
    match fieldValueAt (c :: cs) with
    | some fv => some fv
    | none => findFieldValue cs

/-- The generated filter regex `field\s*=\s*['"]?value['"]?` at this position. -/
def filterCondAt (field value : List Char) (s : List Char) : Bool :=
  match dropPrefixCI field s with
  | none => false
  | some r =>
    match r.dropWhile isWs with
    | c :: r2 =>
      c = '=' &&
        (let r3 := r2.dropWhile isWs
         let r4 :=
           match r3 with
           | d :: t => if d = sqc || d = '"' then t else r3
           | [] => r3
         startsWithCI value r4)
    | [] => false

/-- Split on a nonempty separator, leftmost and non-overlapping (JS `split`),
with fuel for structural recursion. -/
def splitOnFuel (sep : List Char) : Nat → List Char → List Char → List (List Char)
  | 0, acc, _ => [acc.reverse]
  | _ + 1, acc, [] => [acc.reverse]
  | fuel + 1, acc, c :: cs =>
    if listStartsWith sep (c :: cs) then
      acc.reverse :: splitOnFuel sep fuel [] ((c :: cs).drop sep.length)
    else splitOnFuel sep fuel (c :: acc) cs

/-- JS `String.split(sep)` over character lists. -/
def splitList (sep s : List Char) : List (List Char) :=
  splitOnFuel sep (s.length + 1) [] s

/-- commandContainsFilter: every `field = value` conjunct of the filter must
occur in the command (case-insensitive); unparsable conjuncts are skipped. -/
def commandContainsFilter (cmd : List Char) (filter : String) : Bool :=
  let lowerCmd := lcs cmd
  let conditions := (splitList (" and ".data) (lcs filter.data)).map trimChars
  conditions.all (fun cond =>
    match findFieldValue cond with
    | none => true
    | some fv => anyTail (filterCondAt fv.1 fv.2) lowerCmd) &&
    decide (0 < conditions.length)

/-- Association-list lookup for rowFilters. -/
def assocLookup (l : List (String × String)) (k : String) : Option String :=
  match l.find? (fun p => p.1 = k) with
  | some p => some p.2
  | none => none

/-- Check 6: scope compliance (operation, table, row filters). -/
def checkScopeCompliance (cmd : List Char) (scope : AccessScope) : BlastRadiusResult :=
  let operation := getOperationType cmd
  if !(scope.allowedOperations.contains operation) then
    { allowed := false,
      reason := some ("Operation " ++ operation ++ " not in approved scope. Allowed: " ++
        String.intercalate ", " scope.allowedOperations),
      violationType := some ViolationType.scope_violation, severity := Severity.high }
  else
    match extractTableName cmd with
    | some table =>
      if !(scope.allowedTables.contains (String.mk (lcs table))) then
        { allowed := false,
          reason := some ("Table " ++ sqs ++ String.mk table ++ sqs ++
            " not in approved scope. Allowed: " ++ String.intercalate ", " scope.allowedTables),
          violationType := some ViolationType.scope_violation, severity := Severity.high }
      else if operation = "UPDATE" || operation = "DELETE" then
        match assocLookup scope.rowFilters (String.mk (lcs table)) with
        | some requiredFilter =>
          if requiredFilter ≠ "" && decide (0 < scope.rowFilters.length) then
            if !commandContainsFilter cmd requiredFilter then
              { allowed := false,
                reason := some ("Query must include approved scope: WHERE " ++ requiredFilter),
                violationType := some ViolationType.scope_violation, severity := Severity.high }
            else allowedLow
          else allowedLow
        | none => allowedLow
      else allowedLow
    | none => allowedLow

/-- checkCommand: the fixed-order rule chain of BlastRadiusController. -/
def checkCommand (cfg : BlastRadiusConfig) (command : List Char) (scope : Option AccessScope) :
    BlastRadiusResult :=
  let trimmedCmd := trimChars command
  let upperCmd := ucs trimmedCmd
  let d := checkDangerousPatterns trimmedCmd
  if !d.allowed then d
  else
    let o := checkBlockedOperations cfg upperCmd
    if !o.allowed then o
    else
      let t := checkBlockedTables cfg trimmedCmd
      if !t.allowed then t
      else
        let w := checkWhereClause cfg trimmedCmd
        if !w.allowed then w
        else
          let r := checkRowLimit cfg trimmedCmd scope
          if !r.allowed then r
          else
            match scope with
            | some sc =>
              let s := checkScopeCompliance trimmedCmd sc
              if !s.allowed then s else allowedLow
            | none => allowedLow

/-- BlastRadiusController.fromScope: scope-specific configuration. -/
def fromScope (sc : AccessScope) : BlastRadiusConfig :=
  { maxRowsAffected := sc.maxRowsAffected
    requireWhereForUpdate := true
    requireWhereForDelete := true
    blockedOperations :=
      (["DROP", "TRUNCATE", "ALTER", "CREATE"]).filter
        (fun op => !(sc.allowedOperations.contains op))
    blockedTables := defaultConfig.blockedTables }

/-! ### RiskAnalyzer (risk-analyzer.ts) -/

/-- One alternative of `(?:jira|ticket|issue|bug|gh-|#)` at this position. -/
def ticketAltAt (s : List Char) : Option (List Char) :=
  match dropPrefixCI ("jira".data) s with
  | some r => some r
  | none =>
    match dropPrefixCI ("ticket".data) s with
    | some r => some r
    | none =>
      match dropPrefixCI ("issue".data) s with
      | some r => some r
      | none =>
        match dropPrefixCI ("bug".data) s with
        | some r => some r
        | none =>
          match dropPrefixCI ("gh-".data) s with
          | some r => some r
          | none => dropPrefixCI ("#".data) s

/-- Regex `(?:jira|ticket|issue|bug|gh-|#)\s*#?\d+` (case-insensitive) here. -/
def ticketRefAt (s : List Char) : Bool :=
  match ticketAltAt s with
  | none => false
  | some r =>
    let r2 := r.dropWhile isWs
    let r3 :=
      match r2 with
      | c :: t => if c = '#' then t else r2
      | [] => r2
    match r3 with
    | c :: _ => isDigitChar c
    | [] => false

/-- The ticket-reference test of RiskAnalyzer, anywhere in the reason. -/
def hasTicketReference (reason : List Char) : Bool :=
  anyTail ticketRefAt reason

/-- Regex `(?:urgent|emergency|critical|asap|immediately)` (case-insensitive). -/
def isUrgentReason (reason : List Char) : Bool :=
  anyTail (fun t =>
    startsWithCI ("urgent".data) t || startsWithCI ("emergency".data) t ||
      startsWithCI ("critical".data) t || startsWithCI ("asap".data) t ||
      startsWithCI ("immediately".data) t) reason

structure RiskAnalysisResult where
  riskScore : Nat
  requiredApprovals : Nat
  factors : List String
deriving DecidableEq

/-- RiskAnalyzer.analyzeRequest, with the source's sequential accumulation. -/
def analyzeRequest (reason resource accessLevel : String) : RiskAnalysisResult :=
  let hasTicket := hasTicketReference reason.data
  let s1 : Nat := if hasTicket then 0 else 30
  let f1 : List String :=
    if hasTicket then ["Has ticket reference"] else ["No ticket reference"]
  let s2 := s1 + (if reason.length < 20 then 25 else 0)
  let f2 := f1 ++
    (if reason.length < 20 then ["Vague reason"]
     else if 50 < reason.length then ["Detailed justification"] else [])
  let urg := isUrgentReason reason.data
  let s3 := s2 + (if urg then 15 else 0)
  let f3 := f2 ++ (if urg then ["Marked as urgent"] else [])
  let prod := containsSub ("prod".data) resource.data
  let s4 := s3 + (if prod then 20 else 0)
  let f4 := f3 ++ (if prod then ["Production resource"] else [])
  let rw := accessLevel = "READ_WRITE"
  let s5 := s4 + (if rw then 15 else 0)
  let f5 := f4 ++ (if rw then ["Write access requested"] else [])
  let req := if 70 < s5 then 2 else 1
  let f6 := f5 ++
    (if 70 < s5 then ["High risk: requires 2 approvals"]
     else if 40 < s5 then ["Medium risk: requires 1 approval"]
     else ["Low risk: requires 1 approval"])
  { riskScore := min 100 s5, requiredApprovals := req, factors := f6 }

/-! ### ScopeAnalyzer (scope-analyzer.ts) -/

structure EntityPat where
  word : List Char
  syms : List Char
  allowWs : Bool
  etype : String
  efield : String

/-- ENTITY_PATTERNS: `word\s*[#:]?\s*(\d+)` rules plus `id\s*[=:]?\s*(\d+)`
and the bare `#(\d+)` pattern (which allows no whitespace). -/
def entityPats : List EntityPat :=
  [ ⟨"user".data, ['#', ':'], true, "user", "user_id"⟩,
    ⟨"customer".data, ['#', ':'], true, "user", "user_id"⟩,
    ⟨"account".data, ['#', ':'], true, "user", "user_id"⟩,
    ⟨"order".data, ['#', ':'], true, "order", "order_id"⟩,
    ⟨"transaction".data, ['#', ':'], true, "order", "transaction_id"⟩,
    ⟨"invoice".data, ['#', ':'], true, "billing", "invoice_id"⟩,
    ⟨"id".data, ['=', ':'], true, "entity", "id"⟩,
    ⟨"#".data, [], false, "entity", "id"⟩ ]

/-- Match one entity pattern at this position: the digit capture and the rest. -/
def entityMatchAt (p : EntityPat) (s : List Char) : Option (List Char × List Char) :=
  match dropPrefixCI p.word s with
  | none => none
  | some r =>
    let r1 := if p.allowWs then r.dropWhile isWs else r
    let r2 :=
      match r1 with
      | c :: t => if p.syms.contains c then t else r1
      | [] => r1
    let r3 := if p.allowWs then r2.dropWhile isWs else r2
    let ds := r3.takeWhile isDigitChar
    if ds.isEmpty then none else some (ds, r3.drop ds.length)

/-- All matches of one entity pattern, scanning left to right (global regex). -/
def findAllAux (p : EntityPat) : Nat → List Char → List (List Char)
  | 0, _ => []
  | _ + 1, [] => []
  | fuel + 1, c :: cs =>
    match entityMatchAt p (c :: cs) with
    | some capRest => capRest.1 :: findAllAux p fuel capRest.2
    | none => findAllAux p fuel cs

/-- extractEntities: ordered patterns, `type:value` de-duplication. -/
def extractEntities (reason : List Char) : List ExtractedEntity :=
  (entityPats.foldl
    (fun (st : List ExtractedEntity × List String) p =>
      (findAllAux p reason.length reason).foldl
        (fun (st2 : List ExtractedEntity × List String) cap =>
          let key := p.etype ++ ":" ++ String.mk cap
          if st2.2.contains key then st2
          else (st2.1 ++ [⟨p.etype, p.efield, String.mk cap⟩], st2.2 ++ [key]))
        st)
    ([], [])).1

/-- TABLE_PATTERNS of the source, in insertion order. -/
def tablePatternEntries : List (String × List String) :=
  [ ("users", ["user", "users", "account", "accounts", "customer", "customers", "member", "members"]),
    ("orders", ["order", "orders", "purchase", "purchases", "transaction", "transactions"]),
    ("billing", ["billing", "payment", "payments", "invoice", "invoices", "subscription", "subscriptions"]),
    ("products", ["product", "products", "item", "items", "inventory"]),
    ("sessions", ["session", "sessions", "login", "logins", "auth"]) ]

/-- extractTables: keyword dictionaries, then the resource-based fallback. -/
def extractTables (reason resource : List Char) : List String :=
  let lowerReason := lcs reason
  let tables := tablePatternEntries.foldl
    (fun acc p =>
      if p.2.any (fun kw => containsSub kw.data lowerReason) then
        (if acc.contains p.1 then acc else acc ++ [p.1])
      else acc)
    []
  if tables.isEmpty then
    if containsSub ("postgres".data) resource || containsSub ("db".data) resource then
      ["users"]
    else []
  else tables

/-- OPERATION_KEYWORDS of the source, in insertion order. -/
def operationKeywordEntries : List (String × List String) :=
  [ ("SELECT", ["view", "read", "check", "verify", "investigate", "debug", "look", "see", "find", "query"]),
    ("UPDATE", ["fix", "update", "modify", "change", "correct", "edit", "patch", "adjust"]),
    ("INSERT", ["add", "create", "insert", "new"]),
    ("DELETE", ["delete", "remove", "drop", "clear"]) ]

/-- extractOperations: SELECT always; write verbs by keyword; default UPDATE for
READ_WRITE; DELETE kept only when delete/remove is literally mentioned. -/
def extractOperations (reason : List Char) (accessLevel : String) : List String :=
  let lowerReason := lcs reason
  let ops0 := ["SELECT"]
  if accessLevel = "READ_ONLY" then ops0
  else
    let ops1 := operationKeywordEntries.foldl
      (fun ops p =>
        if p.1 = "SELECT" then ops
        else if p.2.any (fun kw => containsSub kw.data lowerReason) then
          (if ops.contains p.1 then ops else ops ++ [p.1])
        else ops)
      ops0
    let ops2 :=
      if accessLevel = "READ_WRITE" && ops1.length = 1 then ops1 ++ ["UPDATE"] else ops1
    if !containsSub ("delete".data) lowerReason && !containsSub ("remove".data) lowerReason then
      ops2.erase "DELETE"
    else ops2

/-- generateRowFilters: pair each entity with each table via the type rules. -/
def generateRowFilters (entities : List ExtractedEntity) (tables : List String) :
    List (String × String) :=
  tables.foldl
    (fun filters table =>
      let conds := entities.foldl
        (fun cs e =>
          if e.type = "user" && (["users", "orders", "billing", "sessions"].contains table) then
            cs ++ [(if table = "users" then "id" else "user_id") ++ " = " ++ e.value]
          else if e.type = "order" && table = "orders" then cs ++ ["id = " ++ e.value]
          else if e.type = "billing" && table = "billing" then cs ++ ["id = " ++ e.value]
          else if e.type = "entity" then cs ++ [e.field ++ " = " ++ e.value]
          else cs)
        []
      if conds.isEmpty then filters
      else filters ++ [(table, String.intercalate " AND " conds)])
    []

/-- Regex `#\d+` anywhere. -/
def hashNumAnywhere (s : List Char) : Bool :=
  anyTail (fun t =>
    match t with
    | c :: d :: _ => c = '#' && isDigitChar d
    | _ => false) s

/-- Regex `id\s*[=:]\s*\d+` (case-insensitive) anywhere; the symbol is required. -/
def idEqColonNum (s : List Char) : Bool :=
  anyTail (fun t =>
    match dropPrefixCI ("id".data) t with
    | none => false
    | some r =>
      match r.dropWhile isWs with
      | c :: r2 =>
        (c = '=' || c = ':') &&
          (match r2.dropWhile isWs with
           | d :: _ => isDigitChar d
           | [] => false)
      | [] => false) s

/-- calculateMaxRows of ScopeAnalyzer. -/
def calculateMaxRows (reason : List Char) (accessLevel : String) : Int :=
  if accessLevel = "READ_ONLY" then 1000
  else
    let lowerReason := lcs reason
    if containsSub ("bulk".data) lowerReason || containsSub ("mass".data) lowerReason ||
        containsSub ("all".data) lowerReason then 100
    else if hashNumAnywhere lowerReason || idEqColonNum lowerReason then 1
    else 10

/-- generateScopeDescription of ScopeAnalyzer. -/
def generateScopeDescription (entities : List ExtractedEntity) (tables operations : List String) :
    String :=
  let parts := ["Operations: " ++ String.intercalate ", " operations,
    "Tables: " ++ String.intercalate ", " tables]
  let parts :=
    if !entities.isEmpty then
      parts ++ ["Scope: " ++
        String.intercalate ", " (entities.map (fun e => e.type ++ "=" ++ e.value))]
    else parts
  String.intercalate " | " parts

/-- ScopeAnalyzer.analyzeReason: the deterministic reason-driven scope builder. -/
def analyzeReason (reason resource accessLevel : String) : AccessScope :=
  let entities := extractEntities reason.data
  let tables := extractTables reason.data resource.data
  let operations := extractOperations reason.data accessLevel
  { allowedTables := tables
    allowedOperations := operations
    rowFilters := generateRowFilters entities tables
    maxRowsAffected := calculateMaxRows reason.data accessLevel
    extractedEntities := entities
    scopeDescription := generateScopeDescription entities tables operations }

/-! ### ProvisionCredentials handler: AI-proposed scope (no sanitization) -/

structure AIEntity where
  type : String
  id : String
deriving DecidableEq

/-- The untrusted AI scope-extraction result (ScopeExtractionResult). -/
structure ScopeExtractionResult where
  tables : List String
  entities : List AIEntity
  operations : List String
  maxRows : Int
  summary : String
deriving DecidableEq

/-- Set a rowFilters key, replacing an existing binding. -/
def assocSet (l : List (String × String)) (k v : String) : List (String × String) :=
  if l.any (fun p => p.1 = k) then l.map (fun p => if p.1 = k then (k, v) else p)
  else l ++ [(k, v)]

/-- The ProvisionCredentials handler's conversion of the AI response into an
AccessScope: the operations are stored as proposed (the source only applies a
TypeScript type cast, no runtime sanitization). -/
def scopeFromAI (ai : ScopeExtractionResult) : AccessScope :=
  { allowedTables := ai.tables
    allowedOperations := ai.operations
    rowFilters :=
      ai.entities.foldl
        (fun rf e =>
          ai.tables.foldl (fun rf2 t => assocSet rf2 t (e.type ++ "_id = " ++ e.id)) rf)
        []
    maxRowsAffected := ai.maxRows
    extractedEntities := ai.entities.map (fun e => ⟨e.type, e.type ++ "_id", e.id⟩)
    scopeDescription := ai.summary }

/-- The handler's scope determination: AI result when the AI call succeeded,
otherwise the rule-based fallback; no scope when no reason was supplied. -/
def provisionScope (reason : Option String) (aiResult : Option ScopeExtractionResult)
    (resource accessLevel : String) : Option AccessScope :=
  match reason with
  | none => none
  | some rsn =>
    match aiResult with
    | some ai => some (scopeFromAI ai)
    | none => some (analyzeReason rsn resource accessLevel)

structure Credential where
  id : String
  requestId : String
  username : String
  password : String
  resource : String
  expiresAt : String
  createdAt : String
  sessionId : String
  accessScope : Option AccessScope
deriving DecidableEq

/-- The credential record written to the `credentials` state by the handler. -/
def storedCredential (requestId username password resource expiresAt createdAt sessionId : String)
    (scope : Option AccessScope) : Credential :=
  { id := requestId, requestId := requestId, username := username, password := password,
    resource := resource, expiresAt := expiresAt, createdAt := createdAt,
    sessionId := sessionId, accessScope := scope }

/-! ### ApproveRequestAPI handler (approve-request-api.step.ts) -/

structure ApprovalRecord where
  id : String
  requestId : String
  approvers : List String
  requiredApprovals : Nat
  currentApprovals : Nat
  status : String
deriving DecidableEq

structure AccessStateRec where
  id : String
  status : String
  approvers : List String
  approvedAt : Option String
  revokedAt : Option String
  revokeReason : Option String
deriving DecidableEq

structure ApproveOutcome where
  httpStatus : Nat
  newApproval : Option ApprovalRecord
  newState : Option AccessStateRec
  provisionEmitted : Bool
  statusField : String
deriving DecidableEq

/-- The ApproveRequestAPI handler: looks up the request and the approval
record, authorizes the approver, then increments `currentApprovals` by one per
call (no de-duplication by approver identity) and provisions once the counter
reaches `requiredApprovals`. -/
def approveHandler (requestState : Option AccessStateRec) (approval : Option ApprovalRecord)
    (approver now : String) : ApproveOutcome :=
  match requestState with
  | none => ⟨404, none, none, false, "Request not found"⟩
  | some rs =>
    match approval with
    | none => ⟨404, none, none, false, "Approval request not found"⟩
    | some ap =>
      if !(ap.approvers.contains approver) then ⟨403, none, none, false, "Approver not authorized"⟩
      else
        let currentApprovals := ap.currentApprovals + 1
        let done := ap.requiredApprovals ≤ currentApprovals
        let ap2 : ApprovalRecord :=
          { ap with
            currentApprovals := currentApprovals
            status := if done then "approved" else "pending" }
        let rs2 : AccessStateRec :=
          { rs with
            approvers := rs.approvers ++ [approver]
            status := if done then "approved" else "pending_approval"
            approvedAt := if done then some now else none }
        ⟨200, some ap2, some rs2, done, if done then "approved" else "pending_approval"⟩

/-! ### RevokeAccess handler (calculate-risk.step.ts, RevokeAccess) -/

/-- Outcome of one external `CredentialManager.revokeCredentials` call. -/
inductive AttemptOutcome
  | success
  | failureFalse
  | throws

structure RevokeEffects where
  attempts : Nat
  successes : Nat
  sleeps : List Nat
  alertSecurity : Bool
deriving DecidableEq

def noRevokeEffects : RevokeEffects := ⟨0, 0, [], false⟩

/-- The retry loop of the RevokeAccess handler over the remaining attempt
numbers: break on success; a `false` return retries immediately; an exception
sleeps `1000 * attempt` ms before the next try, or logs the security alert if
it was the final attempt.  Every exception is caught inside the loop. -/
def runAttempts (oracle : Nat → AttemptOutcome) : List Nat → Bool × RevokeEffects
  | [] => (false, noRevokeEffects)
  | a :: rest =>
    match oracle a with
    | AttemptOutcome.success => (true, ⟨1, 1, [], false⟩)
    | AttemptOutcome.failureFalse =>
      let pr := runAttempts oracle rest
      (pr.1, ⟨pr.2.attempts + 1, pr.2.successes, pr.2.sleeps, pr.2.alertSecurity⟩)
    | AttemptOutcome.throws =>
      if rest.isEmpty then (false, ⟨1, 0, [], true⟩)
      else
        let pr := runAttempts oracle rest
        (pr.1, ⟨pr.2.attempts + 1, pr.2.successes, (1000 * a) :: pr.2.sleeps, pr.2.alertSecurity⟩)

/-- The full retry schedule: `maxRetries = 3`, attempts numbered 1, 2, 3. -/
def revokeRetry (oracle : Nat → AttemptOutcome) : Bool × RevokeEffects :=
  runAttempts oracle [1, 2, 3]

structure RevokeStore where
  credentials : Option Credential
  accessRequest : Option AccessStateRec
deriving DecidableEq

structure RevokeResult where
  store : RevokeStore
  effects : RevokeEffects
  deletions : Nat
  auditEmitted : Bool
deriving DecidableEq

/-- The RevokeAccess handler: with no stored credentials it warns and returns;
otherwise it runs the bounded retry loop, then unconditionally marks the
request `revoked` (recording `revokedAt` and `revokeReason`), deletes the
credentials, and emits the audit event.  The handler never raises: the only
fallible call is wrapped in try/catch inside the loop. -/
def revokeHandler (st : RevokeStore) (reason now : String) (oracle : Nat → AttemptOutcome) :
    RevokeResult :=
  match st.credentials with
  | none => ⟨st, noRevokeEffects, 0, false⟩
  | some _ =>
    let pr := revokeRetry oracle
    let newReq := st.accessRequest.map (fun r =>
      { r with status := "revoked", revokedAt := some now, revokeReason := some reason })
    ⟨⟨none, newReq⟩, pr.2, 1, true⟩

/-! ### LogCommandAPI handler (log-command-api.step.ts) -/

inductive LogCommandResponse
  | notFound
  | blocked (chk : BlastRadiusResult) (scopeInfo : Option String)
  | allowedLogged (scopeInfo : Option String)
deriving DecidableEq

/-- The LogCommandAPI handler: find the credential whose sessionId matches;
404 when none exists; otherwise run the blast-radius check (with the
scope-derived controller when a scope is attached) and answer 403 blocked or
200 allowed-and-logged. -/
def logCommandHandler (creds : List Credential) (sessionId command : String) :
    LogCommandResponse :=
  match creds.find? (fun c => c.sessionId == sessionId) with
  | none => LogCommandResponse.notFound
  | some credential =>
    let scope := credential.accessScope
    let cfg :=
      match scope with
      | some sc => fromScope sc
      | none => defaultConfig
    let chk := checkCommand cfg command.data scope
    if !chk.allowed then LogCommandResponse.blocked chk (scope.map AccessScope.scopeDescription)
    else LogCommandResponse.allowedLogged (scope.map AccessScope.scopeDescription)

/-! ### Specification-side definitions (from the spec's words, for comparison) -/

/-- Spec model of the enforcement chain: the ordered rule results. -/
def ruleChain (cfg : BlastRadiusConfig) (command : List Char) (scope : Option AccessScope) :
    List BlastRadiusResult :=
  let t := trimChars command
  [checkDangerousPatterns t, checkBlockedOperations cfg (ucs t), checkBlockedTables cfg t,
    checkWhereClause cfg t, checkRowLimit cfg t scope] ++
    (match scope with
     | some sc => [checkScopeCompliance t sc]
     | none => [])

/-- Spec model: the first failing rule determines the result; if none fail the
command is allowed with severity low. -/
def firstFailing : List BlastRadiusResult → BlastRadiusResult
  | [] => allowedLow
  | r :: rs => if !r.allowed then r else firstFailing rs

/-- Spec model of the additive risk points before clamping. -/
def riskPoints (reason resource accessLevel : String) : Nat :=
  (if hasTicketReference reason.data then 0 else 30) +
    (if reason.length < 20 then 25 else 0) +
    (if isUrgentReason reason.data then 15 else 0) +
    (if containsSub ("prod".data) resource.data then 20 else 0) +
    (if accessLevel = "READ_WRITE" then 15 else 0)

/-- A `#` immediately followed by a digit occurs somewhere in the string. -/
def containsHashDigit : List Char → Bool
  | [] => false
  | c :: cs =>
    (c = '#' &&
      (match cs with
       | d :: _ => isDigitChar d
       | [] => false)) ||
      containsHashDigit cs

/-- The operations that the spec permits in any access scope. -/
def allowedOpsUniverse : List String := ["SELECT", "INSERT", "UPDATE", "DELETE"]

/-! ### Concrete inputs used by the claim theorems and witnesses -/

/-- An adversarial AI scope proposal carrying a disallowed operation. -/
def aiDropProposal : ScopeExtractionResult :=
  { tables := ["users"], entities := [], operations := ["DROP"], maxRows := 1000000,
    summary := "cleanup of the users table" }

/-- The scope of spec Scenarios C and D. -/
def scenarioScope : AccessScope :=
  { allowedTables := ["users"], allowedOperations := ["SELECT", "UPDATE"],
    rowFilters := [("users", "id = 123")], maxRowsAffected := 10,
    extractedEntities := [], scopeDescription := "Operations: SELECT, UPDATE | Tables: users" }

/-- Scenario C command: UPDATE users SET name='x' WHERE id = 123. -/
def updateCmd123 : List Char :=
  "UPDATE users SET name=".data ++ [sqc, 'x', sqc] ++ " WHERE id = 123".data

/-- Scenario D command: UPDATE users SET name='x' WHERE id = 999. -/
def updateCmd999 : List Char :=
  "UPDATE users SET name=".data ++ [sqc, 'x', sqc] ++ " WHERE id = 999".data

/-- A pending approval record that requires two approvals. -/
def ap0 : ApprovalRecord := ⟨"appr1", "req4", ["alice", "bob"], 2, 0, "pending"⟩

/-- The matching request state in `pending_approval`. -/
def rs0 : AccessStateRec := ⟨"req4", "pending_approval", [], none, none, none⟩

/-- A stored credential used by the log-command witness. -/
def w9cred : Credential := ⟨"r9", "r9", "u", "p", "db", "e", "c", "sess9", none⟩

/-- A stored credential used by the revocation witness. -/
def wCred : Credential := ⟨"r7", "r7", "temp_u", "p", "prod_db", "e", "c", "sess7", none⟩

/-- The matching active request state for the revocation witness. -/
def wReq : AccessStateRec := ⟨"r7", "active", ["alice", "bob"], some "t1", none, none⟩

/-- The store holding the credential and request of the revocation witness. -/
def wStore : RevokeStore := ⟨some wCred, some wReq⟩

/-! ### Helper lemmas -/

theorem anyTail_of_suffix_true (f : List Char → Bool) (a t : List Char) (h : f t = true) :
    anyTail f (a ++ t) = true := by
  induction a with
  | nil =>
    cases t with
    | nil => simpa [anyTail] using h
    | cons c cs => simp [anyTail, h]
  | cons c cs ih => simp [anyTail, ih]

theorem isDigitChar_not_ws (d : Char) (hd : isDigitChar d = true) : isWs d = false := by
  simp only [isDigitChar, Bool.and_eq_true, decide_eq_true_eq] at hd
  simp only [isWs, Bool.or_eq_false_iff, decide_eq_false_iff_not]
  omega

theorem ticketRefAt_hash (d : Char) (rest : List Char) (hd : isDigitChar d = true) :
    ticketRefAt ('#' :: d :: rest) = true := by
  have hne : ¬(d = '#') := by
    intro h
    subst h
    simp [isDigitChar] at hd
  have hws := isDigitChar_not_ws d hd
  simp [ticketRefAt, ticketAltAt, dropPrefixCI, List.dropWhile, hws, hne, hd]

theorem containsHashDigit_ticket (s : List Char) (h : containsHashDigit s = true) :
    hasTicketReference s = true := by
  induction s with
  | nil => simp [containsHashDigit] at h
  | cons c cs ih =>
    simp only [containsHashDigit] at h
    rw [hasTicketReference, anyTail]
    rcases Bool.or_eq_true_iff.mp h with h1 | h2
    · simp only [Bool.and_eq_true] at h1
      obtain ⟨hc, hm⟩ := h1
      have hc2 : c = '#' := by simpa using hc
      subst hc2
      cases cs with
      | nil => simp at hm
      | cons d rest =>
        have hd : isDigitChar d = true := by simpa using hm
        simp [ticketRefAt_hash d rest hd]
    · have := ih h2
      rw [hasTicketReference] at this
      simp [this]

theorem opsFoldlStep_mem (g : String × List String → Bool) (table : List (String × List String)) :
    ∀ (init : List String) (op : String),
      op ∈ table.foldl
        (fun ops p =>
          if p.1 = "SELECT" then ops
          else if g p then (if ops.contains p.1 then ops else ops ++ [p.1]) else ops)
        init →
      op ∈ init ∨ op ∈ table.map Prod.fst := by
  induction table with
  | nil =>
    intro init op h
    exact Or.inl h
  | cons p ps ih =>
    intro init op h
    rw [List.foldl_cons] at h
    rcases ih _ op h with hmem | hmem
    · by_cases h1 : p.1 = "SELECT"
      · rw [if_pos h1] at hmem
        exact Or.inl hmem
      · rw [if_neg h1] at hmem
        by_cases h2 : g p = true
        · rw [if_pos h2] at hmem
          by_cases h3 : init.contains p.1 = true
          · rw [if_pos h3] at hmem
            exact Or.inl hmem
          · rw [if_neg h3] at hmem
            rcases List.mem_append.mp hmem with h4 | h4
            · exact Or.inl h4
            · right
              rw [List.map_cons]
              rw [List.mem_singleton.mp h4]
              exact List.mem_cons_self _ _
        · rw [if_neg h2] at hmem
          exact Or.inl hmem
    · right
      rw [List.map_cons]
      exact List.mem_cons_of_mem _ hmem

theorem opsUniverse_of_mem_foldl (reason : List Char) (op : String)
    (h : op ∈ operationKeywordEntries.foldl
      (fun ops p =>
        if p.1 = "SELECT" then ops
        else if p.2.any (fun kw => containsSub kw.data (lcs reason)) then
          (if ops.contains p.1 then ops else ops ++ [p.1])
        else ops)
      ["SELECT"]) :
    allowedOpsUniverse.contains op = true := by
  rcases opsFoldlStep_mem (fun p => p.2.any (fun kw => containsSub kw.data (lcs reason)))
      operationKeywordEntries ["SELECT"] op h with h6 | h6
  · rw [List.mem_singleton.mp h6]
    decide
  · simp only [operationKeywordEntries, List.map_cons, List.map_nil, List.mem_cons,
      List.not_mem_nil, or_false] at h6
    rcases h6 with h7 | h7 | h7 | h7 <;> rw [h7] <;> decide

theorem extractOperations_subset (reason : List Char) (accessLevel : String) :
    ((extractOperations reason accessLevel).all
      (fun op => allowedOpsUniverse.contains op)) = true := by
  rw [List.all_eq_true]
  intro op hop
  simp only [extractOperations] at hop
  split at hop
  · rw [List.mem_singleton.mp hop]
    decide
  · split at hop
    · have hop2 := List.mem_of_mem_erase hop
      split at hop2
      · rcases List.mem_append.mp hop2 with h4 | h4
        · exact opsUniverse_of_mem_foldl reason op h4
        · rw [List.mem_singleton.mp h4]
          decide
      · exact opsUniverse_of_mem_foldl reason op hop2
    · split at hop
      · rcases List.mem_append.mp hop with h4 | h4
        · exact opsUniverse_of_mem_foldl reason op h4
        · rw [List.mem_singleton.mp h4]
          decide
      · exact opsUniverse_of_mem_foldl reason op hop

theorem runAttempts_successes_le_one (oracle : Nat → AttemptOutcome) (l : List Nat) :
    (runAttempts oracle l).2.successes ≤ 1 := by
  induction l with
  | nil => simp [runAttempts, noRevokeEffects]
  | cons a rest ih =>
    cases h : oracle a
    · simp [runAttempts, h]
    · simp only [runAttempts, h]
      simpa using ih
    · by_cases hr : rest.isEmpty = true
      · simp [runAttempts, h, hr]
      · simp only [runAttempts, h, if_neg hr]
        simpa using ih

theorem logCommandHandler_cons_ne (c : Credential) (cs : List Credential) (sid cmd : String)
    (h : (c.sessionId == sid) = false) :
    logCommandHandler (c :: cs) sid cmd = logCommandHandler cs sid cmd := by
  simp [logCommandHandler, List.find?, h]

theorem logCommandHandler_cons_found (c : Credential) (cs : List Credential) (sid cmd : String)
    (h : (c.sessionId == sid) = true) :
    logCommandHandler (c :: cs) sid cmd ≠ LogCommandResponse.notFound := by
  simp only [logCommandHandler, List.find?, h]
  split <;> simp

theorem logCommandHandler_notFound_iff (creds : List Credential) (sid cmd : String) :
    logCommandHandler creds sid cmd = LogCommandResponse.notFound ↔
      ∀ c ∈ creds, c.sessionId ≠ sid := by
  induction creds with
  | nil => simp [logCommandHandler, List.find?]
  | cons c cs ih =>
    by_cases h : c.sessionId = sid
    · refine Iff.intro (fun habs => ?_) (fun hall => ?_)
      · exact absurd habs (logCommandHandler_cons_found c cs sid cmd (by simp [h]))
      · exact absurd h (hall c (List.mem_cons_self c cs))
    · rw [logCommandHandler_cons_ne c cs sid cmd (by simp [h]), ih]
      simp [List.forall_mem_cons, h]

/-! ### Claim theorems -/

/-- Claim C1 (code bug): the invariant `allowedOperations ⊆ {SELECT, INSERT,
UPDATE, DELETE}` fails for stored credentials whose scope comes from the
untrusted AI channel: the ProvisionCredentials handler stores the proposed
operations unchanged (only a TypeScript type cast, no runtime sanitization),
so a proposal carrying DROP is stored verbatim; the deterministic rule-based
builder, by contrast, always satisfies the invariant. -/
theorem C1_ai_scope_stored_unsanitized :
    ((storedCredential "req1" "temp_u" "p" "prod_db" "e" "c" "sess1"
        (provisionScope (some "cleanup of the users table") (some aiDropProposal)
          "prod_db" "READ_WRITE")).accessScope.map AccessScope.allowedOperations) =
      some ["DROP"] ∧
    allowedOpsUniverse.contains "DROP" = false ∧
    ∀ reason resource accessLevel : String,
      ((analyzeReason reason resource accessLevel).allowedOperations.all
        (fun op => allowedOpsUniverse.contains op)) = true := by
  refine ⟨rfl, rfl, fun reason resource accessLevel => ?_⟩
  exact extractOperations_subset reason.data accessLevel

/-- Claim C2 counterexample: on `DELETE FROM users;` with no scope the
enforcer's violationType is not `no_where` (the dangerous-pattern veto fires
first and reports `operation_blocked`). -/
theorem C2_delete_counterexample :
    (checkCommand defaultConfig ("DELETE FROM users;".data) none).violationType ≠
      some ViolationType.no_where := by decide

/-- Claim C2 (corrected): `DELETE FROM users;` with no scope is blocked with
severity critical, but by the dangerous-pattern rule named
`DELETE all rows (no WHERE)`, whose violationType is `operation_blocked`. -/
theorem C2_delete_no_scope_result :
    checkCommand defaultConfig ("DELETE FROM users;".data) none =
      { allowed := false, reason := some "Blocked: DELETE all rows (no WHERE)",
        violationType := some ViolationType.operation_blocked,
        severity := Severity.critical } := by decide

/-- Claim C3 (code bug): with scope rowFilters `{users: id = 123}`, the
command `UPDATE users SET name='x' WHERE id = 123` is blocked by the broken
`UPDATE all rows (no WHERE)` dangerous pattern even though it contains a WHERE
clause and the required filter; the scope-compliance rule itself (rule 6)
would allow it and would block the `id = 999` variant with the
filter-referencing reason, exactly as the claim describes. -/
theorem C3_row_filter_scenarios :
    checkCommand (fromScope scenarioScope) updateCmd123 (some scenarioScope) =
      { allowed := false, reason := some "Blocked: UPDATE all rows (no WHERE)",
        violationType := some ViolationType.operation_blocked,
        severity := Severity.high } ∧
    hasWordToken ("WHERE".data) updateCmd123 = true ∧
    commandContainsFilter updateCmd123 "id = 123" = true ∧
    checkScopeCompliance updateCmd123 scenarioScope = allowedLow ∧
    checkScopeCompliance updateCmd999 scenarioScope =
      { allowed := false, reason := some "Query must include approved scope: WHERE id = 123",
        violationType := some ViolationType.scope_violation,
        severity := Severity.high } := by decide

/-- Claim C4 (code bug): approving twice with the same approver double-counts:
the handler increments `currentApprovals` on every call, so on a request
requiring two approvals a second approval by the same approver marks the
request approved, records the approver twice, and triggers provisioning. -/
theorem C4_duplicate_approver_double_counts :
    (approveHandler (some rs0) (some ap0) "alice" "t1").provisionEmitted = false ∧
    (approveHandler (approveHandler (some rs0) (some ap0) "alice" "t1").newState
        (approveHandler (some rs0) (some ap0) "alice" "t1").newApproval
        "alice" "t2").provisionEmitted = true ∧
    (approveHandler (approveHandler (some rs0) (some ap0) "alice" "t1").newState
        (approveHandler (some rs0) (some ap0) "alice" "t1").newApproval
        "alice" "t2").newState.map AccessStateRec.status = some "approved" ∧
    (approveHandler (approveHandler (some rs0) (some ap0) "alice" "t1").newState
        (approveHandler (some rs0) (some ap0) "alice" "t1").newApproval
        "alice" "t2").newState.map AccessStateRec.approvers = some ["alice", "alice"] := by
  decide

/-- Claim C5 (confirmed): the risk scorer is the additive model (+30 missing
ticket, +25 short reason, +15 urgency, +20 production resource, +15
READ_WRITE) clamped to [0,100], with requiredApprovals = 2 exactly when the
score exceeds 70; Scenario A (`urgent fix`, `prod_db`, READ_WRITE) scores 100
and requires 2 approvals. -/
theorem C5_risk_scorer_additive_model :
    (∀ reason resource accessLevel : String,
      (analyzeRequest reason resource accessLevel).riskScore =
        min 100 (riskPoints reason resource accessLevel) ∧
      (analyzeRequest reason resource accessLevel).requiredApprovals =
        (if 70 < min 100 (riskPoints reason resource accessLevel) then 2 else 1)) ∧
    (analyzeRequest "urgent fix" "prod_db" "READ_WRITE").riskScore = 100 ∧
    (analyzeRequest "urgent fix" "prod_db" "READ_WRITE").requiredApprovals = 2 := by
  refine ⟨fun reason resource accessLevel => ⟨rfl, ?_⟩, by decide, by decide⟩
  show (if 70 < riskPoints reason resource accessLevel then 2 else 1) =
    (if 70 < min 100 (riskPoints reason resource accessLevel) then 2 else 1)
  by_cases h : 70 < riskPoints reason resource accessLevel
  · rw [if_pos h, if_pos (by omega)]
  · rw [if_neg h, if_neg (by omega)]

/-- Claim C6 (confirmed): revoke is idempotent: after a completed revoke the
credentials are deleted, so a second invocation is a no-op: it leaves the
terminal state (status, revokeReason) unchanged, performs no further
revocation attempt and no further deletion, and completes normally; across
both calls at most one successful external revocation and at most one
credential deletion occur. -/
theorem C6_revoke_idempotent (st : RevokeStore) (reason now reason2 now2 : String)
    (oracle oracle2 : Nat → AttemptOutcome) :
    (revokeHandler (revokeHandler st reason now oracle).store reason2 now2 oracle2).store =
      (revokeHandler st reason now oracle).store ∧
    (revokeHandler (revokeHandler st reason now oracle).store reason2 now2 oracle2).effects =
      noRevokeEffects ∧
    (revokeHandler (revokeHandler st reason now oracle).store reason2 now2 oracle2).deletions = 0 ∧
    (revokeHandler st reason now oracle).effects.successes +
      (revokeHandler (revokeHandler st reason now oracle).store reason2 now2
        oracle2).effects.successes ≤ 1 ∧
    (revokeHandler st reason now oracle).deletions +
      (revokeHandler (revokeHandler st reason now oracle).store reason2 now2
        oracle2).deletions ≤ 1 := by
  have hsucc := runAttempts_successes_le_one oracle [1, 2, 3]
  cases hc : st.credentials with
  | none => simp [revokeHandler, hc, noRevokeEffects]
  | some c =>
    refine ⟨?_, ?_, ?_, ?_, ?_⟩ <;>
      simp [revokeHandler, hc, revokeRetry, noRevokeEffects]
    exact hsucc

/-- Claim C7 (confirmed): revocation is attempted at most three times; when
the external call throws on every attempt the backoff sleeps are 1000 ms and
2000 ms (linear, 1s × attempt, none after the last try), the security alert is
surfaced, no attempt succeeds, and the request is still marked revoked with
revokedAt and revokeReason recorded and the audit emitted. -/
theorem C7_revocation_retry_bounded (st : RevokeStore) (c : Credential) (r : AccessStateRec)
    (reason now : String) (oracle : Nat → AttemptOutcome)
    (hc : st.credentials = some c) (hr : st.accessRequest = some r)
    (hall : ∀ a, oracle a = AttemptOutcome.throws) :
    (revokeHandler st reason now oracle).effects.attempts = 3 ∧
    (revokeHandler st reason now oracle).effects.sleeps = [1000, 2000] ∧
    (revokeHandler st reason now oracle).effects.alertSecurity = true ∧
    (revokeHandler st reason now oracle).effects.successes = 0 ∧
    (revokeHandler st reason now oracle).store.accessRequest =
      some { r with status := "revoked", revokedAt := some now, revokeReason := some reason } ∧
    (revokeHandler st reason now oracle).auditEmitted = true := by
  simp [revokeHandler, hc, hr, revokeRetry, runAttempts, hall 1, hall 2, hall 3]

/-- Witness for C7 at a concrete store and an always-throwing oracle. -/
theorem C7_revocation_retry_bounded_witness :
    (revokeHandler wStore "manual" "t9" (fun _ => AttemptOutcome.throws)).effects.attempts = 3 ∧
    (revokeHandler wStore "manual" "t9" (fun _ => AttemptOutcome.throws)).effects.sleeps =
      [1000, 2000] ∧
    (revokeHandler wStore "manual" "t9"
      (fun _ => AttemptOutcome.throws)).effects.alertSecurity = true ∧
    (revokeHandler wStore "manual" "t9" (fun _ => AttemptOutcome.throws)).effects.successes = 0 ∧
    (revokeHandler wStore "manual" "t9"
        (fun _ => AttemptOutcome.throws)).store.accessRequest =
      some { wReq with status := "revoked", revokedAt := some "t9", revokeReason := some "manual" } ∧
    (revokeHandler wStore "manual" "t9" (fun _ => AttemptOutcome.throws)).auditEmitted = true :=
  C7_revocation_retry_bounded wStore wCred wReq "manual" "t9"
    (fun _ => AttemptOutcome.throws) rfl rfl (fun _ => rfl)

/-- Claim C8 (confirmed): checkCommand equals the first failing rule of the
fixed chain (dangerous patterns, blocked operations, blocked tables, WHERE
requirement, row limit, scope compliance); rules after the first failure do
not influence the result. -/
theorem C8_first_failing_rule_determines_result (cfg : BlastRadiusConfig) (cmd : List Char)
    (scope : Option AccessScope) :
    checkCommand cfg cmd scope = firstFailing (ruleChain cfg cmd scope) := by
  cases scope <;> rfl

/-- Claim C9 (confirmed): the log-command endpoint answers 404 session-not-
found exactly when no stored credential carries the given sessionId; when one
does, the call returns an enforcement outcome (blocked or allowed-and-logged)
instead. -/
theorem C9_session_not_found (creds : List Credential) (sid cmd : String) :
    (logCommandHandler creds sid cmd = LogCommandResponse.notFound ↔
      ∀ c ∈ creds, c.sessionId ≠ sid) ∧
    ((∃ c ∈ creds, c.sessionId = sid) →
      logCommandHandler creds sid cmd ≠ LogCommandResponse.notFound) := by
  refine ⟨logCommandHandler_notFound_iff creds sid cmd, ?_⟩
  rintro ⟨c, hmem, hsid⟩ habs
  exact (logCommandHandler_notFound_iff creds sid cmd).mp habs c hmem hsid

/-- Witness for C9: a matching credential yields an enforcement result, an
empty store yields not-found. -/
theorem C9_session_not_found_witness :
    logCommandHandler [w9cred] "sess9" "SELECT name FROM users" ≠
      LogCommandResponse.notFound ∧
    logCommandHandler [] "sess9" "SELECT name FROM users" = LogCommandResponse.notFound := by
  refine ⟨?_, ?_⟩
  · exact (C9_session_not_found [w9cred] "sess9" "SELECT name FROM users").2
      ⟨w9cred, by simp, rfl⟩
  · exact (C9_session_not_found [] "sess9" "SELECT name FROM users").1.mpr (by simp)

/-- Claim C10 (confirmed): any reason containing `#` immediately followed by a
digit — entity references like `user #123` included — passes the ticket-
reference test, so the +30 missing-ticket factor is never applied to it. -/
theorem C10_hash_digit_counts_as_ticket (reason : String)
    (h : containsHashDigit reason.data = true) :
    hasTicketReference reason.data = true ∧
    ∀ resource accessLevel : String,
      "No ticket reference" ∉ (analyzeRequest reason resource accessLevel).factors := by
  have ht := containsHashDigit_ticket reason.data h
  refine ⟨ht, fun resource accessLevel => ?_⟩
  simp only [analyzeRequest, ht]
  intro hmem
  simp only [if_true, List.mem_append, List.mem_cons, List.mem_singleton,
    List.not_mem_nil] at hmem
  repeat' split at hmem
  all_goals simp_all

/-- Witness for C10 at the reason `user #123`. -/
theorem C10_hash_digit_counts_as_ticket_witness :
    hasTicketReference ("user #123".data) = true ∧
    "No ticket reference" ∉ (analyzeRequest "user #123" "prod_db" "READ_ONLY").factors := by
  have h := C10_hash_digit_counts_as_ticket "user #123" (by decide)
  exact ⟨h.1, h.2 "prod_db" "READ_ONLY"⟩

end GlassKiss
